import Mathlib

/-!
Verification of the flask-cuttlepool extension (`flask_cuttlepool.py`).

The file shallowly embeds the extension's operations:

* `Binder` models the per-app-context binding layer: the `connection`
  property, the `teardown` hook and the `commit` convenience method.
  An app context (`stack.top`) is `Option (Option PoolConnection)`:
  `none` means no context is active; `some b` is an active context whose
  `cuttlepool_connection` attribute is `b` (`none` when the attribute is
  not set).  A `PoolConnection` handed out by the pool is identified by a
  numeric id and carries its `_connection` attribute (`Option Nat`, the
  raw driver connection, `none` once dropped/closed).  Acquisitions from
  the pool are modelled by a fresh-id counter and closes by a log of the
  closed connection ids.
* `Registry` models `init_app`, `_get_app`, `get_pool` and
  `get_connection`: apps and pool instances are numeric identities,
  `app.extensions['cuttlepool']` is a per-(app, instance) slot table plus
  the set of apps on which the `'cuttlepool'` key exists, and pools built
  by `_make_pool` are numbered by a fresh counter.
* `Kwargs` models the keyword-argument merging done by `__init__` and
  `_make_pool` on Python dicts (association lists with last-write-wins
  update, as `dict.update` behaves).
* `Factory` models `cuttlepool_factory`, and `FCP` the `ping` /
  `normalize_connection` registration methods of `FlaskCuttlePool`.
-/

namespace FlaskCuttle

/-! ## Generic Python-dict model (association list, insert-or-overwrite) -/

section AssocDict

variable {α β : Type} [DecidableEq α]

/-- Insert-or-overwrite of one key, as Python `d[k] = v`. -/
def dset : List (α × β) → α → β → List (α × β)
  | [], k, v => [(k, v)]
  | e :: es, k, v => if e.1 = k then (k, v) :: es else e :: dset es k v

/-- Lookup, as Python `d[k]` / `k in d`. -/
def dlookup : List (α × β) → α → Option β
  | [], _ => none
  | e :: es, k => if e.1 = k then some e.2 else dlookup es k

/-- The keys of the dict. -/
def dkeys (l : List (α × β)) : List α := l.map Prod.fst

/-- Python `d.update(u)`: each entry of `u` overwrites or extends `d`. -/
def dupdate (d u : List (α × β)) : List (α × β) :=
  u.foldl (fun acc kv => dset acc kv.1 kv.2) d

end AssocDict

/-! ## The per-context binding layer (`connection`, `teardown`, `commit`) -/

namespace Binder

/-- A `PoolConnection` object handed out by the pool: `connId` is the
object identity, `rawConn` is its `_connection` attribute (the raw
driver connection; `none` when absent, i.e. dropped or closed). -/
structure PoolConnection where
  connId : Nat
  rawConn : Option Nat
deriving DecidableEq, Repr

/-- State of the binding layer: `ctxTop` is `stack.top` (`none`: no app
context; `some b`: context whose `cuttlepool_connection` attribute is
`b`), `nextConnId` numbers fresh pool acquisitions, `closedLog` records
every `close()` call (most recent first). -/
structure BinderState where
  ctxTop : Option (Option PoolConnection)
  nextConnId : Nat
  closedLog : List Nat
deriving DecidableEq, Repr

/-- `self.get_connection()`: the pool hands out a fresh live
`PoolConnection` (fresh object identity, raw connection present). -/
def get_connection (s : BinderState) : PoolConnection × BinderState :=
  (⟨s.nextConnId, some s.nextConnId⟩, { s with nextConnId := s.nextConnId + 1 })

/-- `con.close()`: recorded in the close log. -/
def close (c : PoolConnection) (s : BinderState) : BinderState :=
  { s with closedLog := c.connId :: s.closedLog }

/-- The `connection` property (`flask_cuttlepool.py` lines 230-252).
`pingF` is the built pool's `ping` method.  Returns the property's value
together with the state after the read:
`if ctx is not None:` bind a fresh connection when the attribute is
absent, then if `con._connection is None or not pool.ping(con)` close
the stale binding and bind a fresh one; with no context return `None`. -/
def connection (pingF : PoolConnection → Bool) (s : BinderState) :
    Option PoolConnection × BinderState :=
  match s.ctxTop with
  | none => (none, s)
  | some b =>
    let (con, s1) :=
      match b with
      | some c => (c, s)
      | none =>
        let (c, s') := get_connection s
        (c, { s' with ctxTop := some (some c) })
    if con.rawConn.isNone || !pingF con then
      let s2 := close con s1
      let (c2, s3) := get_connection s2
      (some c2, { s3 with ctxTop := some (some c2) })
    else
      (some con, s1)

/-- The `teardown` hook (lines 220-228): `hasattr(ctx,
'cuttlepool_connection')` is false both when there is no context and
when the attribute was never set. -/
def teardown (s : BinderState) : BinderState :=
  match s.ctxTop with
  | some (some c) => close c s
  | _ => s

/-- Observable outcome of a commit path. -/
inductive CommitOutcome where
  | ok (v : Nat)
  | noActiveConnection
  | useAfterClose
deriving DecidableEq, Repr

/-- Modelled from the spec: `PoolConnection.commit` lives in the external
cuttlepool package, not in this repository.  The spec says passthrough
operations such as `commit()` are forwarded to the underlying raw
connection and fail with `UseAfterClose` when there is none; the commit
result is determined by the raw connection it was forwarded to. -/
def PoolConnection.commit (c : PoolConnection) : CommitOutcome :=
  match c.rawConn with
  | some r => .ok r
  | none => .useAfterClose

/-- The `commit` method (lines 160-172): commits the bound connection,
else raises `RuntimeError` (modelled as `noActiveConnection`). -/
def commit (s : BinderState) : CommitOutcome :=
  match s.ctxTop with
  | some (some c) => c.commit
  | _ => .noActiveConnection

/-- `self.connection.commit()`: read the `connection` property, then
commit its value (committing `None` cannot produce a value). -/
def connectionThenCommit (pingF : PoolConnection → Bool) (s : BinderState) :
    CommitOutcome :=
  match (connection pingF s).1 with
  | some c => c.commit
  | none => .noActiveConnection

end Binder

/-! ## The pool registry (`init_app`, `_get_app`, `get_pool`) -/

namespace Registry

/-- Python exceptions raised on the `_get_app` path (lines 109-126). -/
inductive FlaskErr where
  | runtimeNoApp
  | keyError
  | runtimeNotInit
deriving DecidableEq, Repr

/-- Which of those exceptions are `RuntimeError`s: the lookup
`app.extensions['cuttlepool']` on an app where no instance ever ran
`init_app` raises `KeyError`, which is a `LookupError`, not a
`RuntimeError`. -/
def FlaskErr.isRuntimeError : FlaskErr → Bool
  | .keyError => false
  | _ => true

/-- Extension state across all apps: `cuttlepoolKeyApps` lists the app
identities whose `extensions` dict has the `'cuttlepool'` key, `slots`
maps `(app identity, id(self))` to that instance's pool slot (`none` =
registered but not yet built), and `nextPoolId` numbers the pool objects
`_make_pool` builds (each build returns a fresh object). -/
structure RegState where
  cuttlepoolKeyApps : List Nat
  slots : List ((Nat × Nat) × Option Nat)
  nextPoolId : Nat
deriving DecidableEq, Repr

/-- `init_app` (lines 90-107): ensures the `'cuttlepool'` key exists on
the app's `extensions` dict and sets this instance's slot to `None`.
(Registration of the teardown handler belongs to the Binder model.) -/
def init_app (r : RegState) (app inst : Nat) : RegState :=
  { r with
    cuttlepoolKeyApps :=
      if app ∈ r.cuttlepoolKeyApps then r.cuttlepoolKeyApps
      else app :: r.cuttlepoolKeyApps,
    slots := dset r.slots (app, inst) none }

/-- Result of `_get_app`. -/
inductive AppResult where
  | err (e : FlaskErr)
  | ok (app : Nat)
deriving DecidableEq, Repr

/-- `_get_app` (lines 109-126): prefer `current_app` (`cur`), fall back
to `self._app` (`dflt`), else `RuntimeError`; then
`app.extensions['cuttlepool']` (a `KeyError` when the key is missing)
must contain `id(self)` (`inst`), else `RuntimeError`. -/
def get_app (r : RegState) (cur dflt : Option Nat) (inst : Nat) : AppResult :=
  match (match cur with | some a => some a | none => dflt) with
  | none => .err .runtimeNoApp
  | some app =>
    if app ∈ r.cuttlepoolKeyApps then
      match dlookup r.slots (app, inst) with
      | some _ => .ok app
      | none => .err .runtimeNotInit
    else .err .keyError

/-- Result of `get_pool` / `get_connection`: a pool identity or the
propagated exception. -/
inductive PoolResult where
  | err (e : FlaskErr)
  | ok (pool : Nat)
deriving DecidableEq, Repr

/-- `get_pool` (lines 182-196): look up the app, then under the lock
return the stored pool, building (`_make_pool`) and storing a fresh one
when the slot holds `None`.  The registry state after the call is
returned alongside; when an exception propagates nothing was stored.
(The final branch, a slot vanishing after `_get_app` checked it, cannot
run in a single-threaded execution.) -/
def get_pool (r : RegState) (cur dflt : Option Nat) (inst : Nat) :
    PoolResult × RegState :=
  match get_app r cur dflt inst with
  | .err e => (.err e, r)
  | .ok app =>
    match dlookup r.slots (app, inst) with
    | some (some p) => (.ok p, r)
    | some none =>
      (.ok r.nextPoolId,
       { r with
          slots := dset r.slots (app, inst) (some r.nextPoolId),
          nextPoolId := r.nextPoolId + 1 })
    | none => (.err .runtimeNotInit, r)

/-- `get_connection` (lines 174-180) is
`self.get_pool().get_connection()`: any exception from `get_pool`
propagates before the pool's own `get_connection` can run; on success
the acquisition happens on the returned pool (Binder model), so the
registry-level observation coincides with `get_pool`'s. -/
def get_connection (r : RegState) (cur dflt : Option Nat) (inst : Nat) :
    PoolResult × RegState :=
  get_pool r cur dflt inst

end Registry

/-! ## Keyword-argument merging (`__init__`, `_make_pool`) -/

namespace Kwargs

/-- A Python string, as its character sequence (keeps the key
transformations of `_make_pool` kernel-computable). -/
abbrev Key := List Char

/-- Python `k.startswith(marker)` by structural recursion. -/
def matchesMarker : Key → Key → Bool
  | [], _ => true
  | _ :: _, [] => false
  | m :: ms, c :: cs => if m = c then matchesMarker ms cs else false

/-- The config-key marker `'CUTTLEPOOL_'` of `_make_pool`. -/
def cuttleMarker : Key := "CUTTLEPOOL_".data

/-- `__init__` (lines 75-88): `self._cuttlepool_kwargs = kwargs` followed
by `update(capacity=..., overflow=..., timeout=...)`. -/
def init_kwargs (ctorKwargs : List (Key × Nat))
    (capacity overflow timeout : Nat) : List (Key × Nat) :=
  dupdate ctorKwargs
    [("capacity".data, capacity), ("overflow".data, overflow),
     ("timeout".data, timeout)]

/-- The dict comprehension of `_make_pool` (lines 147-153): one entry per
`app.config` key starting with `CUTTLEPOOL_`, mapping the key with the
marker stripped (`k[len(prefix):]`) and lowercased to the config
value. -/
def config_overrides (config : List (Key × Nat)) : List (Key × Nat) :=
  (config.filter (fun kv => matchesMarker cuttleMarker kv.1)).map
    (fun kv => ((kv.1.drop cuttleMarker.length).map Char.toLower, kv.2))

/-- The keyword arguments `_make_pool` passes to the built pool class:
`kwargs = self._cuttlepool_kwargs.copy()` then
`kwargs.update(**{config comprehension})`. -/
def make_pool_kwargs (ctorKwargs : List (Key × Nat))
    (capacity overflow timeout : Nat) (config : List (Key × Nat)) :
    List (Key × Nat) :=
  dupdate (init_kwargs ctorKwargs capacity overflow timeout)
    (config_overrides config)

end Kwargs

/-! ## `cuttlepool_factory` and the registration decorators -/

namespace Factory

/-- Modelled from the spec: the external CuttlePool base class's default
`ping` is a no-op liveness probe returning true. -/
def default_ping {α : Type} (_c : α) : Bool := true

/-- Modelled from the spec: the external CuttlePool base class's default
`normalize_connection` leaves the connection's state unchanged. -/
def default_normalize_connection {α : Type} (c : α) : α := c

/-- The class produced by `cuttlepool_factory` (lines 36-56), determined
by the captured `ping_fn` and `normalize_fn` closures (`none` when no
function was registered before the build). -/
structure SQLPool (α : Type) where
  ping_fn : Option (α → Bool)
  normalize_fn : Option (α → α)

/-- `SQLPool.ping` (lines 45-48): apply `ping_fn` when one was
registered, otherwise defer to the CuttlePool default. -/
def SQLPool.ping {α : Type} (p : SQLPool α) (c : α) : Bool :=
  match p.ping_fn with
  | some f => f c
  | none => default_ping c

/-- `SQLPool.normalize_connection` (lines 50-54): the connection's state
after normalization: `normalize_fn` when registered, else the default. -/
def SQLPool.normalize_connection {α : Type} (p : SQLPool α) (c : α) : α :=
  match p.normalize_fn with
  | some f => f c
  | none => default_normalize_connection c

/-- `cuttlepool_factory` (lines 36-56): capture the registered
functions; `_make_pool` instantiates the resulting class. -/
def cuttlepool_factory {α : Type} (ping_fn : Option (α → Bool))
    (normalize_fn : Option (α → α)) : SQLPool α :=
  ⟨ping_fn, normalize_fn⟩

end Factory

namespace FCP

/-- The registration state `(self._ping, self._normalize)` of a
`FlaskCuttlePool` instance. -/
structure DecoState (α : Type) where
  ping_reg : Option (α → Bool)
  normalize_reg : Option (α → α)

/-- The `ping` method (lines 198-207): stores `fn` on the instance; the
second component is the method's Python return value, and the body has
no `return`, so it is `None`. -/
def ping {α : Type} (s : DecoState α) (fn : α → Bool) :
    DecoState α × Option (α → Bool) :=
  ({ s with ping_reg := some fn }, none)

/-- The `normalize_connection` method (lines 209-218): stores `fn`; the
return value is again `None`. -/
def normalize_connection {α : Type} (s : DecoState α) (fn : α → α) :
    DecoState α × Option (α → α) :=
  ({ s with normalize_reg := some fn }, none)

end FCP

/-! ## Helper lemmas -/

section AssocDictLemmas

variable {α β : Type} [DecidableEq α]

theorem dupdate_cons (d : List (α × β)) (e : α × β) (u : List (α × β)) :
    dupdate d (e :: u) = dupdate (dset d e.1 e.2) u := rfl

theorem dlookup_dset_self (l : List (α × β)) (k : α) (v : β) :
    dlookup (dset l k v) k = some v := by
  induction l with
  | nil => simp [dset, dlookup]
  | cons e es ih =>
    by_cases h : e.1 = k
    · simp [dset, h, dlookup]
    · simp [dset, h, dlookup, ih]

theorem dlookup_dset_ne (l : List (α × β)) (k k' : α) (v : β) (h : k' ≠ k) :
    dlookup (dset l k v) k' = dlookup l k' := by
  induction l with
  | nil => simp [dset, dlookup, Ne.symm h]
  | cons e es ih =>
    by_cases he : e.1 = k
    · subst he
      simp [dset, dlookup, Ne.symm h]
    · simp [dset, he, dlookup, ih]

theorem dlookup_dupdate_not_mem (d u : List (α × β)) (k : α)
    (h : k ∉ dkeys u) : dlookup (dupdate d u) k = dlookup d k := by
  induction u generalizing d with
  | nil => simp [dupdate]
  | cons e es ih =>
    have hk : k ∉ dkeys es := fun hm => h (List.mem_cons_of_mem _ hm)
    have hne : k ≠ e.1 := fun hh => h (hh ▸ List.mem_cons_self _ _)
    rw [dupdate_cons, ih _ hk, dlookup_dset_ne _ _ _ _ hne]

theorem dlookup_dupdate_mem (d u : List (α × β)) (kv : α × β)
    (hnd : (dkeys u).Nodup) (h : kv ∈ u) :
    dlookup (dupdate d u) kv.1 = some kv.2 := by
  induction u generalizing d with
  | nil => cases h
  | cons e es ih =>
    rw [dupdate_cons]
    rcases List.mem_cons.mp h with he | hes
    · subst he
      have hk : kv.1 ∉ dkeys es := by
        have := hnd
        rw [dkeys, List.map_cons, List.nodup_cons] at this
        exact this.1
      rw [dlookup_dupdate_not_mem _ _ _ hk, dlookup_dset_self]
    · have hnd' : (dkeys es).Nodup := by
        have := hnd
        rw [dkeys, List.map_cons, List.nodup_cons] at this
        exact this.2
      exact ih _ hnd' hes

end AssocDictLemmas

theorem connection_of_bound_live (pingF : Binder.PoolConnection → Bool)
    (s : Binder.BinderState) (c : Binder.PoolConnection)
    (hctx : s.ctxTop = some (some c)) (hraw : c.rawConn ≠ none)
    (hping : pingF c = true) :
    Binder.connection pingF s = (some c, s) := by
  obtain ⟨cid, craw⟩ := c
  cases craw with
  | none => exact absurd rfl hraw
  | some r => simp [Binder.connection, hctx, hping]

theorem connection_binds_result (pingF : Binder.PoolConnection → Bool)
    (s : Binder.BinderState) (b : Option Binder.PoolConnection)
    (hctx : s.ctxTop = some b) :
    ∃ c, (Binder.connection pingF s).1 = some c ∧
      (Binder.connection pingF s).2.ctxTop = some (some c) := by
  cases b with
  | none =>
    simp only [Binder.connection, hctx, Binder.get_connection, Binder.close]
    split
    · exact ⟨_, rfl, rfl⟩
    · exact ⟨_, rfl, rfl⟩
  | some c =>
    simp only [Binder.connection, hctx, Binder.get_connection, Binder.close]
    split
    · exact ⟨_, rfl, rfl⟩
    · exact ⟨c, rfl, hctx⟩

/-! ## Claim theorems -/

/-- C9: with no active application context (`stack.top` is `None`), the
`connection` property returns `None` and leaves the state untouched, so
no connection is acquired from the pool. -/
theorem connection_no_ctx_returns_none (pingF : Binder.PoolConnection → Bool)
    (s : Binder.BinderState) (h : s.ctxTop = none) :
    Binder.connection pingF s = (none, s) := by
  simp [Binder.connection, h]

/-- Witness for C9 at a concrete state with no active context. -/
theorem connection_no_ctx_returns_none_witness :
    Binder.connection (fun _ => true) ⟨none, 0, []⟩ = (none, ⟨none, 0, []⟩) :=
  connection_no_ctx_returns_none _ _ rfl

/-- C3: the `teardown` hook closes the bound connection when one is
bound on the current context, and is a state-preserving no-op when no
context is active or nothing is bound; being total, it never raises. -/
theorem teardown_closes_bound_else_noop (s : Binder.BinderState) :
    (∀ c, s.ctxTop = some (some c) →
      Binder.teardown s = Binder.close c s ∧
      (Binder.teardown s).closedLog = c.connId :: s.closedLog) ∧
    ((s.ctxTop = none ∨ s.ctxTop = some none) → Binder.teardown s = s) := by
  constructor
  · intro c h
    constructor
    · simp [Binder.teardown, h]
    · simp [Binder.teardown, h, Binder.close]
  · rintro (h | h) <;> simp [Binder.teardown, h]

/-- Witness for C3: a bound context gets its connection closed; an empty
context stack is untouched. -/
theorem teardown_closes_bound_else_noop_witness :
    Binder.teardown ⟨some (some ⟨0, some 0⟩), 1, []⟩ =
      Binder.close ⟨0, some 0⟩ ⟨some (some ⟨0, some 0⟩), 1, []⟩ ∧
    Binder.teardown ⟨none, 0, []⟩ = (⟨none, 0, []⟩ : Binder.BinderState) :=
  ⟨((teardown_closes_bound_else_noop _).1 _ rfl).1,
   (teardown_closes_bound_else_noop _).2 (Or.inl rfl)⟩

/-- C1: within one app context, a second read of the `connection`
property returns the identical `PoolConnection` object that the first
read returned (and leaves the state fixed, so every further read does
the same), provided that connection's raw connection is still present
and the pool's ping of it returns true between the reads. -/
theorem connection_repeated_read_identical (pingF : Binder.PoolConnection → Bool)
    (s : Binder.BinderState) (b : Option Binder.PoolConnection)
    (hctx : s.ctxTop = some b) (c1 : Binder.PoolConnection)
    (h1 : (Binder.connection pingF s).1 = some c1)
    (hraw : c1.rawConn ≠ none) (hping : pingF c1 = true) :
    Binder.connection pingF (Binder.connection pingF s).2 =
      (some c1, (Binder.connection pingF s).2) := by
  obtain ⟨c, hc, hctx'⟩ := connection_binds_result pingF s b hctx
  have hcc : c = c1 := Option.some.inj (hc.symm.trans h1)
  subst hcc
  exact connection_of_bound_live pingF _ c hctx' hraw hping

/-- Witness for C1: an active context with nothing bound; the first read
binds connection 5 and the second read returns it unchanged. -/
theorem connection_repeated_read_identical_witness :
    (Binder.connection (fun _ => true) ⟨some none, 5, []⟩).1 =
      some ⟨5, some 5⟩ ∧
    some (5 : Nat) ≠ (none : Option Nat) ∧
    Binder.connection (fun _ => true)
        (Binder.connection (fun _ => true) ⟨some none, 5, []⟩).2 =
      (some ⟨5, some 5⟩,
       (Binder.connection (fun _ => true) ⟨some none, 5, []⟩).2) :=
  ⟨by decide, by decide,
   connection_repeated_read_identical _ _ none rfl ⟨5, some 5⟩ (by decide)
     (by decide) rfl⟩

/-- C2: with a stale connection bound (raw connection absent or pool
ping false), one read of the `connection` property closes the stale
binding exactly once (one new entry in the close log), acquires a fresh
pool connection, binds it in the context and returns it; the fresh
connection is distinct from the stale one. -/
theorem connection_stale_refreshed (pingF : Binder.PoolConnection → Bool)
    (s : Binder.BinderState) (c : Binder.PoolConnection)
    (hctx : s.ctxTop = some (some c))
    (hstale : c.rawConn = none ∨ pingF c = false)
    (hfresh : c.connId ≠ s.nextConnId) :
    Binder.connection pingF s =
      (some ⟨s.nextConnId, some s.nextConnId⟩,
       { ctxTop := some (some ⟨s.nextConnId, some s.nextConnId⟩),
         nextConnId := s.nextConnId + 1,
         closedLog := c.connId :: s.closedLog }) ∧
    (⟨s.nextConnId, some s.nextConnId⟩ : Binder.PoolConnection) ≠ c ∧
    (c.connId :: s.closedLog).count c.connId =
      s.closedLog.count c.connId + 1 := by
  refine ⟨?_, ?_, List.count_cons_self _ _⟩
  · rcases hstale with hr | hp
    · simp [Binder.connection, hctx, hr, Binder.close, Binder.get_connection]
    · simp [Binder.connection, hctx, hp, Binder.close, Binder.get_connection]
  · intro h
    exact hfresh (by rw [← h])

/-- Witness for C2: connection 0 is bound with its raw connection gone;
a read closes it once and binds the fresh connection 1. -/
theorem connection_stale_refreshed_witness :
    Binder.connection (fun _ => true) ⟨some (some ⟨0, none⟩), 1, []⟩ =
      (some ⟨1, some 1⟩, ⟨some (some ⟨1, some 1⟩), 2, [0]⟩) ∧
    (⟨1, some 1⟩ : Binder.PoolConnection) ≠ ⟨0, none⟩ ∧
    ([0] : List Nat).count 0 = ([] : List Nat).count 0 + 1 :=
  connection_stale_refreshed (fun _ => true) ⟨some (some ⟨0, none⟩), 1, []⟩
    ⟨0, none⟩ rfl (Or.inl rfl) (by decide)

/-- C6 counterexample: with connection 0 bound but its raw connection
gone, `commit` commits the stale binding (failing with use-after-close)
while `self.connection.commit()` first replaces the binding and commits
the fresh connection 1, so the two are not equivalent. -/
theorem commit_not_equiv_connection_commit :
    Binder.commit ⟨some (some ⟨0, none⟩), 1, []⟩ ≠
      Binder.connectionThenCommit (fun _ => true)
        ⟨some (some ⟨0, none⟩), 1, []⟩ := by
  decide

/-- C6 (amended): `commit` raises `RuntimeError` iff no app context is
active or no connection is bound on it; otherwise it returns the bound
connection's own `commit()` result, and that agrees with
`self.connection.commit()` whenever the bound connection is live (raw
connection present and pool ping true) — `commit` performs no liveness
check, so a stale binding is not refreshed first. -/
theorem commit_raises_iff_and_delegates (pingF : Binder.PoolConnection → Bool)
    (s : Binder.BinderState) :
    (Binder.commit s = .noActiveConnection ↔
      (s.ctxTop = none ∨ s.ctxTop = some none)) ∧
    (∀ c, s.ctxTop = some (some c) → Binder.commit s = c.commit) ∧
    (∀ c, s.ctxTop = some (some c) → c.rawConn ≠ none → pingF c = true →
      Binder.commit s = Binder.connectionThenCommit pingF s) := by
  refine ⟨?_, ?_, ?_⟩
  · rcases hc : s.ctxTop with _ | (_ | c)
    · simp [Binder.commit, hc]
    · simp [Binder.commit, hc]
    · simp only [Binder.commit, hc]
      constructor
      · intro h
        exfalso
        cases hr : c.rawConn <;>
          simp [Binder.PoolConnection.commit, hr] at h
      · rintro (h | h) <;> simp at h
  · intro c h
    simp [Binder.commit, h]
  · intro c h hraw hping
    rw [Binder.connectionThenCommit,
      connection_of_bound_live pingF s c h hraw hping]
    simp [Binder.commit, h]

/-- Witness for C6 (amended) at concrete states: an empty stack raises,
a live bound connection commits itself, and agrees with the property
path. -/
theorem commit_raises_iff_and_delegates_witness :
    (Binder.commit ⟨none, 0, []⟩ = .noActiveConnection) ∧
    Binder.commit ⟨some (some ⟨0, some 7⟩), 1, []⟩ =
      Binder.PoolConnection.commit ⟨0, some 7⟩ ∧
    Binder.commit ⟨some (some ⟨0, some 7⟩), 1, []⟩ =
      Binder.connectionThenCommit (fun _ => true)
        ⟨some (some ⟨0, some 7⟩), 1, []⟩ :=
  ⟨(commit_raises_iff_and_delegates (fun _ => true) ⟨none, 0, []⟩).1.mpr
      (Or.inl rfl),
   (commit_raises_iff_and_delegates (fun _ => true)
      ⟨some (some ⟨0, some 7⟩), 1, []⟩).2.1 _ rfl,
   (commit_raises_iff_and_delegates (fun _ => true)
      ⟨some (some ⟨0, some 7⟩), 1, []⟩).2.2 _ rfl (by decide) rfl⟩

/-- C5: the keyword arguments `_make_pool` passes to the pool class are
the constructor-supplied connection arguments (together with capacity,
overflow and timeout) updated with one entry per `CUTTLEPOOL_<KEY>`
config key mapping `<key>` lowercased to the config value: every
derived config entry wins over the constructor-supplied value, and every
other key keeps its constructor-supplied value.  (The hypothesis rules
out two distinct config keys colliding on the same derived key.) -/
theorem make_pool_kwargs_merge (ctorKwargs config : List (Kwargs.Key × Nat))
    (capacity overflow timeout : Nat)
    (hnd : (dkeys (Kwargs.config_overrides config)).Nodup) :
    (∀ kv ∈ Kwargs.config_overrides config,
      dlookup (Kwargs.make_pool_kwargs ctorKwargs capacity overflow timeout
        config) kv.1 = some kv.2) ∧
    (∀ k, k ∉ dkeys (Kwargs.config_overrides config) →
      dlookup (Kwargs.make_pool_kwargs ctorKwargs capacity overflow timeout
        config) k =
      dlookup (Kwargs.init_kwargs ctorKwargs capacity overflow timeout) k) := by
  constructor
  · intro kv h
    exact dlookup_dupdate_mem _ _ kv hnd h
  · intro k h
    exact dlookup_dupdate_not_mem _ _ k h

/-- Witness for C5: constructor argument `database`, config keys
`CUTTLEPOOL_USER` (derived to `user`) and `DEBUG` (ignored): `user`
comes from the config, `capacity` and `database` keep their
constructor-supplied values. -/
theorem make_pool_kwargs_merge_witness :
    dlookup (Kwargs.make_pool_kwargs [("database".data, 2)] 10 3 5
      [("CUTTLEPOOL_USER".data, 7), ("DEBUG".data, 9)]) "user".data =
      some 7 ∧
    dlookup (Kwargs.make_pool_kwargs [("database".data, 2)] 10 3 5
      [("CUTTLEPOOL_USER".data, 7), ("DEBUG".data, 9)]) "capacity".data =
      some 10 ∧
    dlookup (Kwargs.make_pool_kwargs [("database".data, 2)] 10 3 5
      [("CUTTLEPOOL_USER".data, 7), ("DEBUG".data, 9)]) "database".data =
      some 2 := by
  have h := make_pool_kwargs_merge [("database".data, 2)]
    [("CUTTLEPOOL_USER".data, 7), ("DEBUG".data, 9)] 10 3 5 (by decide)
  refine ⟨h.1 ("user".data, 7) (by decide), ?_, ?_⟩
  · exact (h.2 ("capacity".data) (by decide)).trans (by decide)
  · exact (h.2 ("database".data) (by decide)).trans (by decide)

/-- C4: on a registered but unbuilt slot, the first `get_pool` builds
the pool numbered `r.nextPoolId` and stores it in that slot; the first
`get_pool` on a second registered slot — another app, or another
instance on the same app — builds the distinct pool `r.nextPoolId + 1`;
and on built slots `get_pool` keeps returning the identical stored pool
without changing the registry. -/
theorem get_pool_idempotent_distinct (r : Registry.RegState)
    (a1 i1 a2 i2 : Nat) (d1 d2 : Option Nat)
    (hk1 : a1 ∈ r.cuttlepoolKeyApps)
    (h1 : dlookup r.slots (a1, i1) = some none)
    (hk2 : a2 ∈ r.cuttlepoolKeyApps)
    (h2 : dlookup r.slots (a2, i2) = some none)
    (hne : (a1, i1) ≠ (a2, i2)) :
    Registry.get_pool r (some a1) d1 i1 =
      (.ok r.nextPoolId,
       { r with
          slots := dset r.slots (a1, i1) (some r.nextPoolId),
          nextPoolId := r.nextPoolId + 1 }) ∧
    dlookup (dset r.slots (a1, i1) (some r.nextPoolId)) (a1, i1) =
      some (some r.nextPoolId) ∧
    Registry.get_pool
        { r with
            slots := dset r.slots (a1, i1) (some r.nextPoolId),
            nextPoolId := r.nextPoolId + 1 } (some a2) d2 i2 =
      (.ok (r.nextPoolId + 1),
       { r with
          slots := dset (dset r.slots (a1, i1) (some r.nextPoolId)) (a2, i2)
            (some (r.nextPoolId + 1)),
          nextPoolId := r.nextPoolId + 2 }) ∧
    r.nextPoolId ≠ r.nextPoolId + 1 ∧
    Registry.get_pool
        { r with
            slots := dset (dset r.slots (a1, i1) (some r.nextPoolId)) (a2, i2)
              (some (r.nextPoolId + 1)),
            nextPoolId := r.nextPoolId + 2 } (some a1) d1 i1 =
      (.ok r.nextPoolId,
       { r with
          slots := dset (dset r.slots (a1, i1) (some r.nextPoolId)) (a2, i2)
            (some (r.nextPoolId + 1)),
          nextPoolId := r.nextPoolId + 2 }) ∧
    Registry.get_pool
        { r with
            slots := dset (dset r.slots (a1, i1) (some r.nextPoolId)) (a2, i2)
              (some (r.nextPoolId + 1)),
            nextPoolId := r.nextPoolId + 2 } (some a2) d2 i2 =
      (.ok (r.nextPoolId + 1),
       { r with
          slots := dset (dset r.slots (a1, i1) (some r.nextPoolId)) (a2, i2)
            (some (r.nextPoolId + 1)),
          nextPoolId := r.nextPoolId + 2 }) := by
  have hne' : (a2, i2) ≠ (a1, i1) := Ne.symm hne
  have l2 : dlookup (dset r.slots (a1, i1) (some r.nextPoolId)) (a2, i2) =
      some none := by
    rw [dlookup_dset_ne _ _ _ _ hne', h2]
  have l1 : dlookup (dset (dset r.slots (a1, i1) (some r.nextPoolId)) (a2, i2)
      (some (r.nextPoolId + 1))) (a1, i1) = some (some r.nextPoolId) := by
    rw [dlookup_dset_ne _ _ _ _ hne, dlookup_dset_self]
  have l2' : dlookup (dset (dset r.slots (a1, i1) (some r.nextPoolId)) (a2, i2)
      (some (r.nextPoolId + 1))) (a2, i2) = some (some (r.nextPoolId + 1)) :=
    dlookup_dset_self _ _ _
  refine ⟨?_, dlookup_dset_self _ _ _, ?_, Nat.ne_of_lt (Nat.lt_succ_self _),
    ?_, ?_⟩
  · simp [Registry.get_pool, Registry.get_app, hk1, h1]
  · simp [Registry.get_pool, Registry.get_app, hk2, l2]
  · simp [Registry.get_pool, Registry.get_app, hk1, l1]
  · simp [Registry.get_pool, Registry.get_app, hk2, l2']

/-- Witness for C4: app 0 with instances 1 and 2 registered (two
FlaskCuttlePool instances on the same app): the two slots get the
distinct pools 0 and 1, and further calls return them unchanged. -/
theorem get_pool_idempotent_distinct_witness :
    Registry.get_pool ⟨[0], [((0, 1), none), ((0, 2), none)], 0⟩
        (some 0) none 1 =
      (.ok 0, ⟨[0], [((0, 1), some 0), ((0, 2), none)], 1⟩) ∧
    dlookup ([((0, 1), some 0), ((0, 2), none)] :
        List ((Nat × Nat) × Option Nat)) (0, 1) = some (some 0) ∧
    Registry.get_pool ⟨[0], [((0, 1), some 0), ((0, 2), none)], 1⟩
        (some 0) none 2 =
      (.ok 1, ⟨[0], [((0, 1), some 0), ((0, 2), some 1)], 2⟩) ∧
    (0 : Nat) ≠ 0 + 1 ∧
    Registry.get_pool ⟨[0], [((0, 1), some 0), ((0, 2), some 1)], 2⟩
        (some 0) none 1 =
      (.ok 0, ⟨[0], [((0, 1), some 0), ((0, 2), some 1)], 2⟩) ∧
    Registry.get_pool ⟨[0], [((0, 1), some 0), ((0, 2), some 1)], 2⟩
        (some 0) none 2 =
      (.ok 1, ⟨[0], [((0, 1), some 0), ((0, 2), some 1)], 2⟩) :=
  get_pool_idempotent_distinct ⟨[0], [((0, 1), none), ((0, 2), none)], 0⟩
    0 1 0 2 none none (by decide) (by decide) (by decide) (by decide)
    (by decide)

/-- C7 counterexample: on an app that has an `extensions` dict but on
which no FlaskCuttlePool instance ever ran `init_app` (so the
`'cuttlepool'` key is missing), `get_pool` under that app's context
raises `KeyError` — which is not the `RuntimeError` the claim states. -/
theorem get_pool_unregistered_keyerror :
    (Registry.get_pool ⟨[], [], 0⟩ (some 0) none 0).1 = .err .keyError ∧
    Registry.FlaskErr.isRuntimeError .keyError = false := by
  decide

/-- C7 (amended): a `get_pool` or `get_connection` call under an active
app on which this instance never ran `init_app` raises an exception and
neither builds nor stores a pool (the registry is unchanged); the
exception is the `RuntimeError` of `_get_app` when some instance had
registered on the app (its `'cuttlepool'` key exists), but the
`KeyError` of `app.extensions['cuttlepool']` — not a `RuntimeError` —
when no instance at all had. -/
theorem get_pool_unregistered_raises (r : Registry.RegState)
    (a inst : Nat) (dflt : Option Nat)
    (hslot : dlookup r.slots (a, inst) = none) :
    (Registry.get_pool r (some a) dflt inst).2 = r ∧
    Registry.get_connection r (some a) dflt inst =
      Registry.get_pool r (some a) dflt inst ∧
    (a ∈ r.cuttlepoolKeyApps →
      (Registry.get_pool r (some a) dflt inst).1 = .err .runtimeNotInit) ∧
    (a ∉ r.cuttlepoolKeyApps →
      (Registry.get_pool r (some a) dflt inst).1 = .err .keyError) ∧
    Registry.FlaskErr.isRuntimeError .runtimeNotInit = true ∧
    Registry.FlaskErr.isRuntimeError .keyError = false := by
  refine ⟨?_, rfl, ?_, ?_, rfl, rfl⟩
  · by_cases hk : a ∈ r.cuttlepoolKeyApps
    · simp [Registry.get_pool, Registry.get_app, hk, hslot]
    · simp [Registry.get_pool, Registry.get_app, hk]
  · intro hk
    simp [Registry.get_pool, Registry.get_app, hk, hslot]
  · intro hk
    simp [Registry.get_pool, Registry.get_app, hk]

/-- Witness for C7 (amended): app 5 carries instance 9's registration
but instance 7 never ran `init_app` there; its `get_pool` raises the
`RuntimeError` and the registry is unchanged. -/
theorem get_pool_unregistered_raises_witness :
    (Registry.get_pool ⟨[5], [((5, 9), none)], 0⟩ (some 5) none 7).2 =
      (⟨[5], [((5, 9), none)], 0⟩ : Registry.RegState) ∧
    (Registry.get_pool ⟨[5], [((5, 9), none)], 0⟩ (some 5) none 7).1 =
      .err .runtimeNotInit := by
  have h := get_pool_unregistered_raises ⟨[5], [((5, 9), none)], 0⟩ 5 7 none
    (by decide)
  exact ⟨h.1, h.2.2.1 (by decide)⟩

/-- C8: a ping function registered before the first pool build becomes
the built pool's `ping` (it is applied to each pinged connection), and a
registered normalize function is the one `normalize_connection` invokes;
with nothing registered, both defer to the CuttlePool defaults. -/
theorem factory_dispatches_registered_callbacks {α : Type}
    (f : α → Bool) (g : α → α) (c : α) :
    (Factory.cuttlepool_factory (some f) (some g)).ping c = f c ∧
    (Factory.cuttlepool_factory (some f) (some g)).normalize_connection c =
      g c ∧
    (Factory.cuttlepool_factory (none : Option (α → Bool))
      (none : Option (α → α))).ping c = Factory.default_ping c ∧
    (Factory.cuttlepool_factory (none : Option (α → Bool))
      (none : Option (α → α))).normalize_connection c =
      Factory.default_normalize_connection c :=
  ⟨rfl, rfl, rfl, rfl⟩

/-- C10: the `ping` and `normalize_connection` methods store the given
function on the instance and return `None` (their bodies have no
`return` statement), so used as decorators they rebind the decorated
name to `None`, not to the function. -/
theorem registration_methods_return_none {α : Type}
    (s : FCP.DecoState α) (f : α → Bool) (g : α → α) :
    (FCP.ping s f).1.ping_reg = some f ∧
    (FCP.ping s f).2 = none ∧
    (FCP.ping s f).2 ≠ some f ∧
    (FCP.normalize_connection s g).1.normalize_reg = some g ∧
    (FCP.normalize_connection s g).2 = none ∧
    (FCP.normalize_connection s g).2 ≠ some g := by
  refine ⟨rfl, rfl, ?_, rfl, rfl, ?_⟩ <;>
    simp [FCP.ping, FCP.normalize_connection]

end FlaskCuttle
